import Mathlib

/-!
Shallow embedding of the private blockchain core found in
src/01 - Blockchain Fundamentals/Project - Create your own private blockchain/src/blockchain.js.

Modelling conventions:
* Promises and awaits are read sequentially: each awaited promise settles
  before the next statement runs, and a rejection propagates to the caller.
* The JavaScript expression new Date().getTime().toString().slice(0, -3)
  is the current Unix time in seconds; it is threaded through every
  time-dependent operation as an explicit argument now : Nat.
* The external crypto-js SHA256 digest is modelled by an injective
  stand-in function of the serialized input string.
* The external bitcoinjs-message verifier is a Bool-valued parameter.
* block.js is not among the sources; the Block constructor, validate and
  getBData are modelled from the spec, sections 3 and 4.1.
-/

set_option maxRecDepth 100000
set_option maxHeartbeats 4000000

namespace StarChain

/-- Modelled from the spec: the Block payload is either the genesis marker
or an ownership record with fields address, message, signature and star
(spec section 3).  block.js, which encodes and decodes the payload, is not
under src; the payload is kept structured with a deterministic
serialization, and the opaque star metadata is an uninterpreted string. -/
inductive BData where
  | genesis (data : String)
  | star (address message signature starData : String)
deriving Repr, DecidableEq

/-- The address field of a decoded payload: the genesis marker has none
(reading it in JavaScript yields undefined, which equals no string). -/
def BData.addr : BData → Option String
  | BData.genesis _ => none
  | BData.star a _ _ _ => some a

/-- The star field of a decoded payload; none for the genesis marker. -/
def BData.starField : BData → Option String
  | BData.genesis _ => none
  | BData.star _ _ _ st => some st

/-- Deterministic serialization of the payload, mirroring JSON with the
field order of the object literals in blockchain.js. -/
def serializeBData : BData → String
  | BData.genesis d => "\x7b\"data\":\"" ++ d ++ "\"\x7d"
  | BData.star a m sg st =>
      "\x7b\"address\":\"" ++ a ++ "\",\"message\":\"" ++ m ++
      "\",\"signature\":\"" ++ sg ++ "\",\"star\":\"" ++ st ++ "\"\x7d"

/-- Modelled from the spec: a Block as blockchain.js uses it, with the
fields it reads and writes (hash, height, body, time, previousBlockHash).
Unset reference fields are null, modelled as none; time is the string the
code assigns.  Heights are JavaScript numbers, modelled as Int. -/
structure Block where
  hash : Option String
  height : Int
  body : BData
  time : String
  previousBlockHash : Option String
deriving Repr, DecidableEq

/-- Modelled from the spec: the Block constructor (block.js is not under
src) stores the payload and leaves hash and previousBlockHash null, height
zero and time empty, to be assigned at insertion time (spec section 3). -/
def mkBlock (body : BData) : Block :=
  { hash := none, height := 0, body := body, time := "", previousBlockHash := none }

/-- JavaScript string interpolation of a possibly-null string. -/
def showOpt : Option String → String
  | none => "null"
  | some s => s

/-- JSON rendering of a possibly-null string field. -/
def serOptStr : Option String → String
  | none => "null"
  | some s => "\"" ++ s ++ "\""

/-- JSON.stringify of a Block, with the field order of the modelled
constructor; deterministic as the spec requires (section 6). -/
def serializeBlock (b : Block) : String :=
  "\x7b\"hash\":" ++ serOptStr b.hash ++
  ",\"height\":" ++ toString b.height ++
  ",\"body\":" ++ serializeBData b.body ++
  ",\"time\":\"" ++ b.time ++
  "\",\"previousBlockHash\":" ++ serOptStr b.previousBlockHash ++ "\x7d"

/-- The external crypto-js SHA256 digest, modelled as an injective
stand-in function of the serialized input (collision-free idealization of
a cryptographic hash). -/
def SHA256 (s : String) : String := "sha256:" ++ s

/-- Serialization of all fields of a block except the hash itself: the
hash slot holds null, as it does in a freshly constructed block. -/
def contentSerialization (b : Block) : String :=
  serializeBlock { b with hash := none }

/-- Modelled from the spec: block.validate recomputes the content hash
from the current field values, with the hash slot nulled, and compares it
to the stored hash (spec section 4.1; block.js is not under src). -/
def Block.validate (b : Block) : Bool :=
  b.hash == some (SHA256 (contentSerialization b))

/-- Modelled from the spec: block.getBData decodes the stored payload back
to structured form (spec section 4.1; block.js is not under src).  For
blocks built by the modelled constructor the decode always succeeds and
returns exactly the stored payload. -/
def Block.getBData (b : Block) : BData := b.body

/-- The mutable state of a Blockchain object: the chain array and the
stored height field. -/
structure BState where
  chain : List Block
  height : Int
deriving Repr, DecidableEq

/-- getChainHeight resolves with the stored height field. -/
def getChainHeight (s : BState) : Int := s.height

/-- getBlockByHash: linear scan of the chain for a block whose hash field
is strictly equal to the argument; resolves null when there is none. -/
def getBlockByHash (chain : List Block) (h : Option String) : Option Block :=
  chain.find? (fun b => b.hash == h)

/-- getBlockByHeight: filter the chain by the height field and take the
first match; resolves null when there is none. -/
def getBlockByHeight (s : BState) (h : Int) : Option Block :=
  (s.chain.filter (fun p => p.height == h)).head?

/-- The first phase of addBlock: assign the height from the chain length
and the time from the clock, then, when the stored height is positive,
look up the previous block and copy its hash into previousBlockHash.
The hash-in-prevBlock test of the source is always true for Block objects,
whose constructor creates the hash property. -/
def prepareBlock (s : BState) (b : Block) (now : Nat) : Block :=
  let b1 : Block := { b with height := (s.chain.length : Int), time := toString now }
  if getChainHeight s > 0 then
    match getBlockByHeight s (b1.height - 1) with
    | some prevBlock => { b1 with previousBlockHash := prevBlock.hash }
    | none => b1
  else b1

/-- The hashing step of addBlock: block.hash := SHA256(JSON.stringify(block)),
applied to the prepared block, whose hash slot still holds its value from
construction. -/
def finalizeBlock (s : BState) (b : Block) (now : Nat) : Block :=
  let pb := prepareBlock s b now
  { pb with hash := some (SHA256 (serializeBlock pb)) }

/-- One iteration of the validateChain loop: skip blocks of height at most
zero; record an invalid-block finding when validate fails; otherwise look
up the block whose hash equals previousBlockHash and compare the hash of
the found block with the hash of the current block, recording a finding on
mismatch.  When the lookup resolves null the source reads prevBlock.hash
from null, modelled as a thrown TypeError. -/
def blockFindings (chain : List Block) (b : Block) : Except String (List String) :=
  if b.height ≤ 0 then
    Except.ok []
  else if ¬ b.validate then
    Except.ok ["Invalid block " ++ showOpt b.hash]
  else
    match getBlockByHash chain b.previousBlockHash with
    | none => Except.error "TypeError: Cannot read properties of null (reading hash)"
    | some prevBlock =>
      if prevBlock.hash != b.hash then
        Except.ok ["Invalid previous block at " ++ showOpt b.hash ++
          " with prev hash " ++ showOpt b.previousBlockHash]
      else
        Except.ok []

/-- The validateChain traversal, accumulating the error log in block
order and propagating a thrown TypeError. -/
def runFindings (chain : List Block) : List Block → List String → Except String (List String)
  | [], log => Except.ok log
  | b :: rest, log =>
    match blockFindings chain b with
    | Except.error m => Except.error m
    | Except.ok f => runFindings chain rest (log ++ f)

/-- The full error log of validateChain over a chain. -/
def validateChainLog (chain : List Block) : Except String (List String) :=
  runFindings chain chain []

/-- How a call of validateChain settles: resolved, rejected with the error
log, or a thrown TypeError. -/
inductive VCOutcome where
  | resolved (ok : Bool)
  | rejected (log : List String)
  | thrown (msg : String)
deriving Repr, DecidableEq

/-- validateChain: resolve true when the error log is empty, reject with
the error log otherwise, and propagate a thrown TypeError. -/
def validateChain (s : BState) : VCOutcome :=
  match validateChainLog s.chain with
  | Except.error m => VCOutcome.thrown m
  | Except.ok log => if log.length ≠ 0 then VCOutcome.rejected log else VCOutcome.resolved true

/-- How a call of addBlock or submitStar settles: resolved with the added
block; rejected with an Error message; or aborted because an awaited
promise rejected with a log or threw, in which case the outer promise
never resolves. -/
inductive AddResult where
  | resolved (b : Block)
  | rejectedMsg (msg : String)
  | propagatedLog (log : List String)
  | propagatedThrow (msg : String)
deriving Repr, DecidableEq

/-- The chain.push and stored-height update of addBlock: append the block
and set the stored height to the new chain length. -/
def pushState (s : BState) (fb : Block) : BState :=
  { chain := s.chain ++ [fb], height := ((s.chain ++ [fb]).length : Int) }

/-- addBlock, returning the settlement of the call together with the state
of the Blockchain object after the call.  The block is prepared and
hashed; an invalid block is rejected before any mutation; otherwise the
block is pushed and the stored height set to the new chain length before
validateChain runs, so a chain-validation failure leaves the block in the
chain.  The resolved-false branch mirrors the dead reject of the source,
reachable only if validateChain resolved false. -/
def addBlock (s : BState) (b : Block) (now : Nat) : AddResult × BState :=
  let fb := finalizeBlock s b now
  if ¬ fb.validate then
    (AddResult.rejectedMsg ("Block is invalid " ++ showOpt fb.hash), s)
  else
    let s1 : BState := pushState s fb
    match validateChain s1 with
    | VCOutcome.resolved true => (AddResult.resolved fb, s1)
    | VCOutcome.resolved false =>
        (AddResult.rejectedMsg ("Chain is invalid after adding block " ++ showOpt fb.hash), s1)
    | VCOutcome.rejected log => (AddResult.propagatedLog log, s1)
    | VCOutcome.thrown m => (AddResult.propagatedThrow m, s1)

/-- The state of a Blockchain object before the constructor body runs. -/
def emptyState : BState := { chain := [], height := -1 }

/-- The payload of the genesis block created by initializeChain. -/
def genesisData : BData := BData.genesis "Genesis Block"

/-- The constructor: start from the empty state and, as the stored height
is -1, append the genesis block through addBlock. -/
def mkBlockchain (now : Nat) : BState :=
  if getChainHeight emptyState == -1 then
    (addBlock emptyState (mkBlock genesisData) now).2
  else
    emptyState

/-- Decimal digits folded to a Nat, for the parseInt model. -/
def digitsToNat (ds : List Char) : Nat :=
  ds.foldl (fun n c => 10 * n + (c.toNat - 48)) 0

/-- JavaScript parseInt on a string: skip leading spaces, read an
optional sign and then a maximal prefix of decimal digits; none models
NaN. -/
def parseIntJS (s : String) : Option Int :=
  let core : List Char → Option Nat := fun l =>
    let ds := l.takeWhile Char.isDigit
    if ds.isEmpty then none else some (digitsToNat ds)
  match s.toList.dropWhile (fun c => c = ' ') with
  | '-' :: rest => (core rest).map (fun n => -(n : Int))
  | '+' :: rest => (core rest).map (fun n => (n : Int))
  | l => (core l).map (fun n => (n : Int))

/-- The split of a character list at every occurrence of a separator, as
JavaScript string.split produces it: no group is dropped, and empty
groups appear between adjacent separators and at the ends. -/
def splitChars (sep : Char) : List Char → List (List Char)
  | [] => [[]]
  | c :: rest =>
    let r := splitChars sep rest
    if c = sep then
      [] :: r
    else
      match r with
      | [] => [[c]]
      | g :: gs => (c :: g) :: gs

/-- message.split(":"): split the string at every colon. -/
def splitJS (sep : Char) (s : String) : List String :=
  (splitChars sep s.toList).map (fun l => String.mk l)

/-- parseInt(message.split(":")[1]): none models NaN, produced both when
the component is missing (parseInt of undefined) and when it is
non-numeric. -/
def messageTime (message : String) : Option Int :=
  match (splitJS ':' message).get? 1 with
  | none => none
  | some t => parseIntJS t

/-- The constant 5 * 60 * 1000 of submitStar. -/
def timeDiff5mins : Int := 5 * 60 * 1000

/-- The expiry test of submitStar: curTime - time > timeDiff5mins, where a
NaN operand makes the comparison false, as in JavaScript. -/
def expiryExceeded (curTime : Int) : Option Int → Bool
  | none => false
  | some t => curTime - t > timeDiff5mins

/-- submitStar, parameterized by the external bitcoinjs-message verifier.
Parse the message time, run the expiry test, verify the signature, then
build the ownership block and await addBlock; a rejection of the awaited
addBlock propagates unchanged, and on success the call resolves with the
added block. -/
def submitStar (verify : String → String → String → Bool) (s : BState)
    (address message signature starData : String) (now : Nat) : AddResult × BState :=
  let time := messageTime message
  let curTime : Int := (now : Int)
  if expiryExceeded curTime time then
    (AddResult.rejectedMsg "More than 5 minutes have elapsed", s)
  else if ¬ verify message address signature then
    (AddResult.rejectedMsg "Failed to verify message", s)
  else
    addBlock s (mkBlock (BData.star address message signature starData)) now

/-- requestMessageOwnershipVerification: format the challenge message from
the address and the current time in seconds. -/
def requestMessageOwnershipVerification (address : String) (now : Nat) : String :=
  address ++ ":" ++ toString now ++ ":starRegistry"

/-- getStarsByWalletAddress: scan the whole chain, decode each payload,
and push the star field of every payload whose address field strictly
equals the argument.  The genesis payload has no address field, so its
undefined address never equals the string argument. -/
def getStarsByWalletAddress (chain : List Block) (address : String) : List String :=
  chain.foldl
    (fun stars block =>
      if (Block.getBData block).addr == some address then
        stars ++ [((Block.getBData block).starField).getD "undefined"]
      else
        stars)
    []

/-- Spec wording of getStarsByAddress (section 4.3): decode every payload,
keep the non-genesis ownership records whose address matches, and collect
their star fields in chain order. -/
def starsOfAddressSpec (chain : List Block) (address : String) : List String :=
  chain.filterMap (fun b =>
    match Block.getBData b with
    | BData.genesis _ => none
    | BData.star a _ _ st => if a = address then some st else none)

/-- The finding validateChain records for one block, on chains where the
previous-hash lookup of every valid non-genesis block succeeds. -/
def blockFinding (chain : List Block) (b : Block) : Option String :=
  if b.height ≤ 0 then
    none
  else if ¬ b.validate then
    some ("Invalid block " ++ showOpt b.hash)
  else
    match getBlockByHash chain b.previousBlockHash with
    | none => none
    | some prevBlock =>
      if prevBlock.hash != b.hash then
        some ("Invalid previous block at " ++ showOpt b.hash ++
          " with prev hash " ++ showOpt b.previousBlockHash)
      else
        none

/-- The states a Blockchain object can be observed in: freshly
constructed, or after a further addBlock call that resolved. -/
inductive Reach : BState → Prop where
  | constructed (now : Nat) : Reach (mkBlockchain now)
  | appended (s : BState) (b : Block) (now : Nat) (b2 : Block) (s2 : BState) :
      Reach s → addBlock s b now = (AddResult.resolved b2, s2) → Reach s2

/-- The genesis block as finalized by the constructor at a given time. -/
def genesisAt (now : Nat) : Block := finalizeBlock emptyState (mkBlock genesisData) now

/-- Concrete genesis block, constructed at time 1000. -/
def cGenesis : Block := genesisAt 1000

/-- Concrete chain state right after construction at time 1000. -/
def cState0 : BState := mkBlockchain 1000

/-- A concrete fresh ownership block. -/
def cBlockXraw : Block := mkBlock (BData.star "addrX" "msgX" "sigX" "starX")

/-- The concrete ownership block as finalized by addBlock at time 1001. -/
def cB1 : Block := finalizeBlock cState0 cBlockXraw 1001

/-- Concrete chain state after the addBlock call at time 1001: the block
is linked to the genesis block and pushed. -/
def cState1 : BState := (addBlock cState0 cBlockXraw 1001).2

/-- A raw block whose previousBlockHash matches no block of any chain
below. -/
def cOrphanRaw : Block :=
  { hash := none, height := 1, body := BData.star "a" "m" "g" "st",
    time := "5", previousBlockHash := some "feed" }

/-- The orphan block with a consistent content hash, so that validate
succeeds and validateChain reaches the previous-hash lookup. -/
def cOrphan : Block :=
  { cOrphanRaw with hash := some (SHA256 (contentSerialization cOrphanRaw)) }

/-- A chain holding the orphan block, as a Blockchain state. -/
def cOrphanState : BState := { chain := [cGenesis, cOrphan], height := 2 }

/-- A block whose hash field was already set before addBlock, so that the
recomputed content hash cannot match the stored one. -/
def cTampered : Block := { mkBlock (BData.star "a" "m" "g" "st") with hash := some "tampered" }

/-- Chain states for the X, Y, X star-registration example: construction
at time 10 and three addBlock calls at times 11, 12, 13. -/
def c7s0 : BState := mkBlockchain 10

/-- State after registering star1 for address X. -/
def c7s1 : BState := (addBlock c7s0 (mkBlock (BData.star "X" "m1" "g1" "star1")) 11).2

/-- State after registering star2 for address Y. -/
def c7s2 : BState := (addBlock c7s1 (mkBlock (BData.star "Y" "m2" "g2" "star2")) 12).2

/-- State after registering star3 for address X. -/
def c7s3 : BState := (addBlock c7s2 (mkBlock (BData.star "X" "m3" "g3" "star3")) 13).2

/-- The genesis block finalized at time 7, for witness statements. -/
def cG7 : Block := genesisAt 7

/-- The state holding exactly the genesis block of time 7. -/
def gState7 : BState := { chain := [cG7], height := 1 }

/-- The genesis block finalized at time 0, for witness statements. -/
def cG0 : Block := genesisAt 0

/-! ## Helper lemmas -/

lemma prepareBlock_hash (s : BState) (b : Block) (now : Nat) :
    (prepareBlock s b now).hash = b.hash := by
  simp only [prepareBlock]
  split
  · split <;> rfl
  · rfl

lemma prepareBlock_height (s : BState) (b : Block) (now : Nat) :
    (prepareBlock s b now).height = (s.chain.length : Int) := by
  simp only [prepareBlock]
  split
  · split <;> rfl
  · rfl

lemma prepareBlock_time (s : BState) (b : Block) (now : Nat) :
    (prepareBlock s b now).time = toString now := by
  simp only [prepareBlock]
  split
  · split <;> rfl
  · rfl

lemma set_hash_none (p : Block) (h : p.hash = none) :
    ({ p with hash := none } : Block) = p := by
  cases p with
  | mk ha he bo ti pr =>
    cases ha with
    | none => rfl
    | some v => exact Option.noConfusion h

lemma validate_finalize_fresh (s : BState) (b : Block) (now : Nat) (h : b.hash = none) :
    (finalizeBlock s b now).validate = true := by
  have hp : (prepareBlock s b now).hash = none := by rw [prepareBlock_hash]; exact h
  show (some (SHA256 (serializeBlock (prepareBlock s b now)))
      == some (SHA256 (serializeBlock ({ prepareBlock s b now with hash := none } : Block)))) = true
  rw [set_hash_none _ hp]
  exact beq_self_eq_true _

lemma finalize_height (s : BState) (b : Block) (now : Nat) :
    (finalizeBlock s b now).height = (s.chain.length : Int) := by
  show (prepareBlock s b now).height = (s.chain.length : Int)
  exact prepareBlock_height s b now

lemma genesisAt_height (now : Nat) : (genesisAt now).height = 0 := by
  show (finalizeBlock emptyState (mkBlock genesisData) now).height = 0
  rw [finalize_height]
  rfl

lemma validateChain_single_genesis (now : Nat) :
    validateChain { chain := [genesisAt now], height := 1 } = VCOutcome.resolved true := by
  have h0 : (genesisAt now).height ≤ 0 := le_of_eq (genesisAt_height now)
  simp [validateChain, validateChainLog, runFindings, blockFindings, h0]

lemma addBlock_eq_of_valid_of_vc (s : BState) (b : Block) (now : Nat)
    (hv : (finalizeBlock s b now).validate = true)
    (hvc : validateChain (pushState s (finalizeBlock s b now)) = VCOutcome.resolved true) :
    addBlock s b now
      = (AddResult.resolved (finalizeBlock s b now), pushState s (finalizeBlock s b now)) := by
  unfold addBlock
  rw [if_neg (by simp [hv])]
  simp only [hvc]

lemma mkBlockchain_eq (now : Nat) :
    mkBlockchain now = { chain := [genesisAt now], height := 1 } := by
  have hv : (finalizeBlock emptyState (mkBlock genesisData) now).validate = true :=
    validate_finalize_fresh _ _ _ rfl
  have h1 : pushState emptyState (finalizeBlock emptyState (mkBlock genesisData) now)
      = { chain := [genesisAt now], height := 1 } := by
    simp [pushState, emptyState, genesisAt]
  have hvc : validateChain (pushState emptyState (finalizeBlock emptyState (mkBlock genesisData) now))
      = VCOutcome.resolved true := by
    rw [h1]; exact validateChain_single_genesis now
  have hres := addBlock_eq_of_valid_of_vc emptyState (mkBlock genesisData) now hv hvc
  unfold mkBlockchain
  rw [if_pos (show (getChainHeight emptyState == -1) = true from rfl), hres]
  exact h1

lemma addBlock_resolved_inv {s : BState} {b : Block} {now : Nat} {b2 : Block} {s2 : BState}
    (h : addBlock s b now = (AddResult.resolved b2, s2)) :
    b2 = finalizeBlock s b now ∧
    s2 = pushState s (finalizeBlock s b now) ∧
    validateChain s2 = VCOutcome.resolved true := by
  simp only [addBlock] at h
  split at h
  · exact absurd (congrArg Prod.fst h) (by simp)
  · split at h
    · rename_i heq
      obtain ⟨h1, h2⟩ := Prod.mk.injEq .. ▸ h
      refine ⟨(AddResult.resolved.injEq .. ▸ h1).symm, h2.symm, ?_⟩
      rw [← h2]; exact heq
    · exact absurd (congrArg Prod.fst h) (by simp)
    · exact absurd (congrArg Prod.fst h) (by simp)
    · exact absurd (congrArg Prod.fst h) (by simp)

lemma blockFindings_of_lookup (chain : List Block) (b : Block)
    (h : 0 < b.height → b.validate = true →
      (getBlockByHash chain b.previousBlockHash).isSome = true) :
    blockFindings chain b = Except.ok (blockFinding chain b).toList := by
  unfold blockFindings blockFinding
  by_cases h0 : b.height ≤ 0
  · simp [h0]
  · have hpos : 0 < b.height := not_le.mp h0
    by_cases hv : b.validate
    · have hsome := h hpos hv
      cases hfind : getBlockByHash chain b.previousBlockHash with
      | none => rw [hfind] at hsome; exact absurd hsome (by simp)
      | some prev =>
        by_cases hneq : prev.hash != b.hash <;> simp [h0, hv, hfind, hneq]
    · simp [h0, hv]

lemma runFindings_complete (chain : List Block) :
    ∀ (l : List Block) (acc : List String),
      (∀ b ∈ l, 0 < b.height → b.validate = true →
        (getBlockByHash chain b.previousBlockHash).isSome = true) →
      runFindings chain l acc = Except.ok (acc ++ l.filterMap (blockFinding chain)) := by
  intro l
  induction l with
  | nil => intro acc _; simp [runFindings]
  | cons b rest ih =>
    intro acc hall
    have hb := hall b (List.mem_cons_self b rest)
    simp only [runFindings]
    rw [blockFindings_of_lookup chain b hb]
    show runFindings chain rest (acc ++ (blockFinding chain b).toList)
        = Except.ok (acc ++ List.filterMap (blockFinding chain) (b :: rest))
    rw [ih (acc ++ (blockFinding chain b).toList)
      (fun x hx => hall x (List.mem_cons_of_mem _ hx))]
    rw [List.filterMap_cons]
    cases blockFinding chain b <;> simp

lemma getStars_foldl_aux (address : String) :
    ∀ (l : List Block) (acc : List String),
      l.foldl
        (fun stars block =>
          if (Block.getBData block).addr == some address then
            stars ++ [((Block.getBData block).starField).getD "undefined"]
          else
            stars)
        acc
      = acc ++ starsOfAddressSpec l address := by
  intro l
  induction l with
  | nil => intro acc; simp [starsOfAddressSpec]
  | cons b rest ih =>
    intro acc
    rw [List.foldl_cons]
    cases hb : Block.getBData b with
    | genesis d =>
      rw [if_neg (by simp [BData.addr])]
      have hspec : starsOfAddressSpec (b :: rest) address = starsOfAddressSpec rest address := by
        simp [starsOfAddressSpec, List.filterMap_cons, hb]
      rw [hspec]
      exact ih acc
    | star a m g st =>
      by_cases ha : a = address
      · rw [if_pos (by simp [BData.addr, ha])]
        have hspec : starsOfAddressSpec (b :: rest) address
            = st :: starsOfAddressSpec rest address := by
          simp [starsOfAddressSpec, List.filterMap_cons, hb, ha]
        rw [hspec]
        rw [show ((BData.star a m g st).starField).getD "undefined" = st from rfl]
        rw [ih (acc ++ [st])]
        simp
      · rw [if_neg (by simp [BData.addr, ha])]
        have hspec : starsOfAddressSpec (b :: rest) address = starsOfAddressSpec rest address := by
          simp [starsOfAddressSpec, List.filterMap_cons, hb, ha]
        rw [hspec]
        exact ih acc

lemma getStars_spec (chain : List Block) (address : String) :
    getStarsByWalletAddress chain address = starsOfAddressSpec chain address := by
  unfold getStarsByWalletAddress
  rw [getStars_foldl_aux address chain []]
  simp

/-! ## Claim theorems -/

/-- C1: evaluation of validateChain at a correctly linked two-block chain.
The chain built by construction at time 1000 and one addBlock call at time
1001 is correctly linked (the second block carries the genesis hash as its
previousBlockHash, which looks up the genesis block) and every block
passes validate, yet validateChain records a linkage finding for the
second block, because the source compares the hash of the looked-up
previous block with the hash of the current block instead of with
previousBlockHash.  The claim says no linkage error is recorded on a
correctly linked chain, so the code contradicts its own step comment and
the intended contract. -/
theorem c1_linkage_check_miscompares :
    cState1.chain = [cGenesis, cB1] ∧
    cB1.previousBlockHash = cGenesis.hash ∧
    getBlockByHash cState1.chain cB1.previousBlockHash = some cGenesis ∧
    cGenesis.validate = true ∧
    cB1.validate = true ∧
    validateChain cState1 = VCOutcome.rejected
      ["Invalid previous block at " ++ showOpt cB1.hash ++
        " with prev hash " ++ showOpt cB1.previousBlockHash] := by
  decide

/-- C2: validateChain resolves with no errors on the freshly constructed,
genesis-only chain, and on the chain state left by every addBlock call
that resolved. -/
theorem c2_validateChain_clean :
    (∀ now : Nat, validateChain (mkBlockchain now) = VCOutcome.resolved true) ∧
    (∀ (s : BState) (b : Block) (now : Nat) (b2 : Block) (s2 : BState),
      addBlock s b now = (AddResult.resolved b2, s2) →
      validateChain s2 = VCOutcome.resolved true) := by
  constructor
  · intro now
    rw [mkBlockchain_eq]
    exact validateChain_single_genesis now
  · intro s b now b2 s2 h
    exact (addBlock_resolved_inv h).2.2

/-- Witness for C2 at the concrete genesis insertion at time 7. -/
theorem c2_validateChain_clean_witness :
    addBlock emptyState (mkBlock genesisData) 7 = (AddResult.resolved cG7, gState7) ∧
    validateChain gState7 = VCOutcome.resolved true :=
  ⟨by decide,
   c2_validateChain_clean.2 emptyState (mkBlock genesisData) 7 cG7 gState7 (by decide)⟩

/-- C3: evaluation of the expiry check of submitStar.  A challenge message
whose embedded timestamp is 301 seconds in the past passes the expiry
check and reaches signature verification, because the constant
timeDiff5mins is 5 * 60 * 1000 while both timestamps are in seconds, so
the actual threshold is 300000 seconds; only an elapsed time above 300000
seconds is rejected as expired.  The claim, the comments of the source and
the variable name all intend a 300 second threshold. -/
theorem c3_expiry_threshold_evaluation :
    messageTime (requestMessageOwnershipVerification "a" 699) = some 699 ∧
    expiryExceeded 1000 (some 699) = false ∧
    (submitStar (fun _ _ _ => false) cState0 "a"
        (requestMessageOwnershipVerification "a" 699) "sg" "st" 1000).1
      = AddResult.rejectedMsg "Failed to verify message" ∧
    (submitStar (fun _ _ _ => false) cState0 "a"
        (requestMessageOwnershipVerification "a" 0) "sg" "st" 300001).1
      = AddResult.rejectedMsg "More than 5 minutes have elapsed" := by
  decide

/-- C4 counterexample: immediately after construction the stored height is
1, the chain length, and not 0, the chain length minus one as the claim
states. -/
theorem c4_counterexample :
    getChainHeight (mkBlockchain 0) = 1 ∧
    ((mkBlockchain 0).chain.length : Int) - 1 = 0 ∧
    getChainHeight (mkBlockchain 0) ≠ ((mkBlockchain 0).chain.length : Int) - 1 := by
  decide

/-- C4 amended: currentHeight returns the length of the chain array: it
resolves with 1 immediately after construction and, after every addBlock
call that resolved, with the height of the newest block plus one. -/
theorem c4_height_is_length :
    (∀ s : BState, Reach s → getChainHeight s = (s.chain.length : Int)) ∧
    (∀ (s : BState) (b : Block) (now : Nat) (b2 : Block) (s2 : BState),
      addBlock s b now = (AddResult.resolved b2, s2) →
      getChainHeight s2 = b2.height + 1) := by
  constructor
  · intro s hs
    induction hs with
    | constructed now => rw [mkBlockchain_eq]; rfl
    | appended s b now b2 s2 _ h ih =>
      obtain ⟨-, hs2, -⟩ := addBlock_resolved_inv h
      subst hs2
      rfl
  · intro s b now b2 s2 h
    obtain ⟨hb2, hs2, -⟩ := addBlock_resolved_inv h
    subst hb2
    subst hs2
    show ((s.chain ++ [finalizeBlock s b now]).length : Int) = _
    rw [finalize_height]
    simp

/-- Witness for C4 amended, at the freshly constructed chain of time 5 and
at the concrete genesis insertion at time 7. -/
theorem c4_height_is_length_witness :
    getChainHeight (mkBlockchain 5) = ((mkBlockchain 5).chain.length : Int) ∧
    getChainHeight gState7 = cG7.height + 1 :=
  ⟨c4_height_is_length.1 (mkBlockchain 5) (Reach.constructed 5),
   c4_height_is_length.2 emptyState (mkBlock genesisData) 7 cG7 gState7 (by decide)⟩

/-- C5 counterexample: a message with no second colon-delimited component
is not rejected as malformed; submitStar proceeds to signature
verification and, with a failing verifier, rejects with the
signature-verification error, even at an arbitrarily late current time. -/
theorem c5_counterexample :
    messageTime "abc" = none ∧
    submitStar (fun _ _ _ => false) cState0 "a" "abc" "sg" "st" 999999999
      = (AddResult.rejectedMsg "Failed to verify message", cState0) := by
  decide

/-- C5 amended: for every message whose second colon-delimited component
is absent or non-numeric, parseInt yields NaN, the expiry comparison is
therefore false, and submitStar proceeds directly to signature
verification; no malformed-message failure exists in the code. -/
theorem c5_malformed_passes_to_signature :
    ∀ (verify : String → String → String → Bool) (s : BState)
      (address message signature starData : String) (now : Nat),
      messageTime message = none →
      expiryExceeded (now : Int) (messageTime message) = false ∧
      (verify message address signature = false →
        submitStar verify s address message signature starData now
          = (AddResult.rejectedMsg "Failed to verify message", s)) := by
  intro verify s address message signature starData now hmsg
  constructor
  · rw [hmsg]
    rfl
  · intro hverify
    unfold submitStar
    rw [hmsg]
    simp [expiryExceeded, hverify]

/-- Witness for C5 amended at the concrete malformed message "xyz". -/
theorem c5_malformed_witness :
    expiryExceeded ((42 : Nat) : Int) (messageTime "xyz") = false ∧
    ((fun (_ _ _ : String) => false) "xyz" "a" "g" = false →
      submitStar (fun _ _ _ => false) emptyState "a" "xyz" "g" "st" 42
        = (AddResult.rejectedMsg "Failed to verify message", emptyState)) :=
  c5_malformed_passes_to_signature (fun _ _ _ => false) emptyState "a" "xyz" "g" "st" 42 (by decide)

/-- C6 counterexample: validateChain raises.  On a chain holding a valid
non-genesis block whose previousBlockHash matches no block, the lookup
resolves null and reading prevBlock.hash throws a TypeError instead of
recording a finding, so validateChain does not return a list of findings
for this chain. -/
theorem c6_counterexample :
    cOrphan.validate = true ∧
    (0 : Int) < cOrphan.height ∧
    getBlockByHash cOrphanState.chain cOrphan.previousBlockHash = none ∧
    validateChain cOrphanState
      = VCOutcome.thrown "TypeError: Cannot read properties of null (reading hash)" := by
  decide

/-- C6 amended: validateChain mutates no state (it is a pure function of
the chain here) and, on every chain in which each non-genesis block that
passes validate has a previousBlockHash matching some block, it returns
normally with the complete accumulated list of findings in block order,
without short-circuiting on the first error; but when a valid block has a
previousBlockHash matching no block it throws a TypeError, and when
findings exist it rejects with the list rather than resolving. -/
theorem c6_no_throw_reports_all :
    ∀ chain : List Block,
      (∀ b ∈ chain, 0 < b.height → b.validate = true →
        (getBlockByHash chain b.previousBlockHash).isSome = true) →
      validateChainLog chain = Except.ok (chain.filterMap (blockFinding chain)) := by
  intro chain h
  unfold validateChainLog
  rw [runFindings_complete chain chain [] h]
  simp

/-- Witness for C6 amended at the concrete correctly linked two-block
chain, whose lookups all succeed. -/
theorem c6_no_throw_witness :
    (∀ b ∈ cState1.chain, 0 < b.height → b.validate = true →
      (getBlockByHash cState1.chain b.previousBlockHash).isSome = true) ∧
    validateChainLog cState1.chain
      = Except.ok (cState1.chain.filterMap (blockFinding cState1.chain)) :=
  ⟨by decide, c6_no_throw_reports_all cState1.chain (by decide)⟩

/-- C7: getStarsByWalletAddress returns exactly the star fields of the
non-genesis blocks whose decoded payload carries the given address, in
chain order (the genesis payload decodes but has no address, so it is
skipped); in particular, on the chain built by registering stars for
addresses X, Y, X, querying X yields precisely the two X stars in
insertion order. -/
theorem c7_stars_by_address :
    (∀ (chain : List Block) (address : String),
      getStarsByWalletAddress chain address = starsOfAddressSpec chain address) ∧
    getStarsByWalletAddress c7s3.chain "X" = ["star1", "star3"] := by
  refine ⟨getStars_spec, ?_⟩
  decide

/-- C8: when the just-finalized block fails validate, addBlock rejects
with the invalid-block error and returns the state it was given: neither
the chain array nor the stored height is mutated. -/
theorem c8_invalid_block_rejected_no_mutation :
    ∀ (s : BState) (b : Block) (now : Nat),
      (finalizeBlock s b now).validate = false →
      addBlock s b now
        = (AddResult.rejectedMsg ("Block is invalid " ++ showOpt (finalizeBlock s b now).hash), s) := by
  intro s b now h
  simp only [addBlock, h]
  simp

/-- Witness for C8 at a concrete block whose hash field was pre-set, so
the finalized block fails validate. -/
theorem c8_invalid_block_witness :
    (finalizeBlock cState0 cTampered 55).validate = false ∧
    addBlock cState0 cTampered 55
      = (AddResult.rejectedMsg ("Block is invalid " ++ showOpt (finalizeBlock cState0 cTampered 55).hash), cState0) :=
  ⟨by decide, c8_invalid_block_rejected_no_mutation cState0 cTampered 55 (by decide)⟩

/-- C9: during addBlock of a freshly constructed block (hash field still
null, as for every block the program appends), the stored hash equals the
digest of the content serialization of the prepared block, the
serialization whose hash slot is null and whose height, time and
previousBlockHash fields already hold their final values; the finalized
block keeps exactly those committed field values, and it passes
validate. -/
theorem c9_hash_commits_to_finalized_fields :
    ∀ (s : BState) (b : Block) (now : Nat),
      b.hash = none →
      (finalizeBlock s b now).hash
          = some (SHA256 (contentSerialization (prepareBlock s b now))) ∧
      (prepareBlock s b now).hash = none ∧
      (prepareBlock s b now).height = (s.chain.length : Int) ∧
      (prepareBlock s b now).time = toString now ∧
      (finalizeBlock s b now).height = (prepareBlock s b now).height ∧
      (finalizeBlock s b now).time = (prepareBlock s b now).time ∧
      (finalizeBlock s b now).previousBlockHash = (prepareBlock s b now).previousBlockHash ∧
      (finalizeBlock s b now).validate = true := by
  intro s b now h
  have hp : (prepareBlock s b now).hash = none := by rw [prepareBlock_hash]; exact h
  refine ⟨?_, hp, prepareBlock_height s b now, prepareBlock_time s b now,
    rfl, rfl, rfl, validate_finalize_fresh s b now h⟩
  show some (SHA256 (serializeBlock (prepareBlock s b now)))
      = some (SHA256 (serializeBlock ({ prepareBlock s b now with hash := none } : Block)))
  rw [set_hash_none _ hp]

/-- Witness for C9 at the concrete genesis insertion at time 3. -/
theorem c9_hash_commits_witness :
    (mkBlock genesisData).hash = none ∧
    ((finalizeBlock emptyState (mkBlock genesisData) 3).hash
        = some (SHA256 (contentSerialization (prepareBlock emptyState (mkBlock genesisData) 3))) ∧
      (prepareBlock emptyState (mkBlock genesisData) 3).hash = none ∧
      (prepareBlock emptyState (mkBlock genesisData) 3).height = (emptyState.chain.length : Int) ∧
      (prepareBlock emptyState (mkBlock genesisData) 3).time = toString (3 : Nat) ∧
      (finalizeBlock emptyState (mkBlock genesisData) 3).height
          = (prepareBlock emptyState (mkBlock genesisData) 3).height ∧
      (finalizeBlock emptyState (mkBlock genesisData) 3).time
          = (prepareBlock emptyState (mkBlock genesisData) 3).time ∧
      (finalizeBlock emptyState (mkBlock genesisData) 3).previousBlockHash
          = (prepareBlock emptyState (mkBlock genesisData) 3).previousBlockHash ∧
      (finalizeBlock emptyState (mkBlock genesisData) 3).validate = true) :=
  ⟨rfl, c9_hash_commits_to_finalized_fields emptyState (mkBlock genesisData) 3 rfl⟩

/-- C10: in every state reachable by construction followed by addBlock
calls that resolved, the block stored at position i of the chain array has
its height field equal to i: heights are exactly the 0-based contiguous
array indices, and every successful append preserves this. -/
theorem c10_heights_are_indices :
    ∀ s : BState, Reach s → ∀ (i : Nat) (b : Block),
      s.chain[i]? = some b → b.height = (i : Int) := by
  intro s hs
  induction hs with
  | constructed now =>
    intro i b hib
    rw [mkBlockchain_eq] at hib
    cases i with
    | zero =>
      simp only [List.getElem?_cons_zero, Option.some.injEq] at hib
      rw [← hib]
      exact genesisAt_height now
    | succ n =>
      simp at hib
  | appended s b now b2 s2 _ h ih =>
    intro i blk hib
    obtain ⟨hb2, hs2, -⟩ := addBlock_resolved_inv h
    subst hs2
    simp only [pushState] at hib
    rcases lt_trichotomy i s.chain.length with hlt | heq | hgt
    · rw [List.getElem?_append_left hlt] at hib
      exact ih i blk hib
    · subst heq
      have hfb : (s.chain ++ [finalizeBlock s b now])[s.chain.length]?
          = some (finalizeBlock s b now) := by simp
      rw [hfb] at hib
      injection hib with hh
      rw [← hh]
      rw [finalize_height]
    · have hnone : (s.chain ++ [finalizeBlock s b now])[i]? = none := by
        apply List.getElem?_len_le
        simp only [List.length_append, List.length_singleton]
        omega
      rw [hnone] at hib
      exact Option.noConfusion hib

/-- Witness for C10 at the freshly constructed chain of time 0 and the
genesis block at index 0. -/
theorem c10_heights_witness :
    (mkBlockchain 0).chain[0]? = some cG0 ∧ cG0.height = ((0 : Nat) : Int) :=
  ⟨by decide, c10_heights_are_indices (mkBlockchain 0) (Reach.constructed 0) 0 cG0 (by decide)⟩

end StarChain
